import Mathlib

/-!
Verification development for the url-shortener service
(source: src/api/mod.rs).

The three request handlers (`create_url`, `delete_url`, `redirect_url`),
the `not_found_handler` and the route registration of `listen`/`api_config`
are embedded as pure Lean functions.  A handler in the source acquires a
pooled database connection (`state.database_client()`), performs exactly one
storage call (`database::create_link` / `delete_link` / `get_link`) and maps
the outcomes to an HTTP response, printing error detail to stderr with
`eprintln!`.  We embed each handler as a function of those two outcomes:
the connection-acquisition result and the storage-call result, the latter
supplied as a function of the acquired client so that the handler itself
decides what to call it on.  The client type is a type parameter: the
handlers never inspect the client value, they only pass it to the storage
call, and the embedding keeps that polymorphism.

The `crate::database` and `crate::state` modules are not part of the given
source tree; where a claim needs the storage semantics itself it is
modelled from the spec (see `Store` below).
-/

/-- Debug rendering of a database error, as interpolated by `eprintln!("...: {:?}", err)`. -/
abbrev DbError := String

/-- The request/response body shape `struct Link { id: String, url: String }`. -/
structure Link where
  id : String
  url : String
deriving DecidableEq, Repr

/-- The request body / path-parameter shape `struct LinkId { id: String }`. -/
structure LinkId where
  id : String
deriving DecidableEq, Repr

/-- A flat JSON object with string values.  Every body this service emits
(`serde_json::json!` objects and the serialized `Link`) has this shape;
equality of objects is key-value equality, in emission order. -/
abbrev JsonObj := List (String × String)

/-- An HTTP response: status code, headers the handler sets explicitly
(only `Location` is ever set), and an optional JSON object body
(`none` is an empty body, as produced by `.finish()` / `.into()`). -/
structure HttpResponse where
  status : Nat
  headers : List (String × String)
  body : Option JsonObj
deriving DecidableEq, Repr

/-- What a handler invocation produces: the HTTP response plus the lines
written to the server-side error stream by `eprintln!`. -/
structure HandlerOutput where
  response : HttpResponse
  errlog : List String
deriving DecidableEq, Repr

/-- Embedding of `create_url` (src/api/mod.rs lines 53-73).
`conn` is the result of `state.database_client()`; `create_link` is the
storage call `database::create_link(&client, &body.id, &body.url)` as a
function of the client.  On success the handler re-serializes the request
body's `id` and `url` (via `format!("{}", ...)`, the identity on strings)
into a fresh `Link` and returns it as 200 JSON. -/
def create_url {C : Type} (conn : Except DbError C) (body : Link)
    (create_link : C → String → String → Except DbError Unit) : HandlerOutput :=
  match conn with
  | .error err =>
      { response := { status := 500, headers := [],
                      body := some [("error", "Error connecting to database")] },
        errlog := ["Error connecting to database: " ++ err] }
  | .ok client =>
      match create_link client body.id body.url with
      | .ok _ =>
          { response := { status := 200, headers := [],
                          body := some [("id", body.id), ("url", body.url)] },
            errlog := [] }
      | .error _ =>
          { response := { status := 500, headers := [],
                          body := some [("error", "Error shortening URL")] },
            errlog := [] }

/-- Embedding of `delete_url` (src/api/mod.rs lines 76-92).
`delete_link` is `database::delete_link(&client, &body.id)` as a function
of the client. -/
def delete_url {C : Type} (conn : Except DbError C) (body : LinkId)
    (delete_link : C → String → Except DbError Unit) : HandlerOutput :=
  match conn with
  | .error err =>
      { response := { status := 500, headers := [],
                      body := some [("error", "Error connecting to database")] },
        errlog := ["Error connecting to database: " ++ err] }
  | .ok client =>
      match delete_link client body.id with
      | .ok _ =>
          { response := { status := 200, headers := [],
                          body := some [("status", "success"), ("message", "Link deleted")] },
            errlog := [] }
      | .error err =>
          { response := { status := 500, headers := [],
                          body := some [("error", "Error deleting Link")] },
            errlog := ["Error deleting Link: " ++ err] }

/-- Embedding of `redirect_url` (src/api/mod.rs lines 95-118).
`get_link` is `database::get_link(&client, &id)` as a function of the
client; a returned non-empty string is placed verbatim into the
`Location` header of a 302 (`HttpResponse::Found`), the empty string
(the not-found sentinel) yields `HttpResponse::Ok().into()`, an empty
200. -/
def redirect_url {C : Type} (conn : Except DbError C) (params : LinkId)
    (get_link : C → String → Except DbError String) : HandlerOutput :=
  match conn with
  | .error err =>
      { response := { status := 500, headers := [],
                      body := some [("error", "Error connecting to database")] },
        errlog := ["Error connecting to database: " ++ err] }
  | .ok client =>
      match get_link client params.id with
      | .ok url =>
          if url.isEmpty then
            { response := { status := 200, headers := [], body := none }, errlog := [] }
          else
            { response := { status := 302, headers := [("Location", url)], body := none },
              errlog := [] }
      | .error err =>
          { response := { status := 500, headers := [],
                          body := some [("error", "Error redirecting to full URL")] },
            errlog := ["Error redirecting to full URL: " ++ err] }

/-- Embedding of `not_found_handler` (src/api/mod.rs lines 18-20). -/
def not_found_handler : HttpResponse :=
  { status := 404, headers := [], body := some [("error", "Not found")] }

/-- HTTP methods relevant to the registered routes. -/
inductive Method where
  | GET | POST | DELETE | OTHER
deriving DecidableEq, Repr

/-- Which handler a request is routed to. -/
inductive Handler where
  | create
  | delete
  | redirect (id : String)
  | notFound
deriving DecidableEq, Repr

/-- Path normalization applied by `NormalizePath::trim` in `listen`:
multiple slashes merge into one and trailing slashes are trimmed, which on
a segment list removes all empty segments. -/
def normalizePath (segs : List String) : List String :=
  segs.filter (fun s => ¬ s.isEmpty)

/-- Route table from `api_config` and `listen` (src/api/mod.rs lines 12-16
and 31-32): a `/api` scope with resources `/urls` (POST → `create_url`),
`/urls/delete` (DELETE → `delete_url`), `/urls/{id}` (GET → `redirect_url`),
and the app-level `default_service` `not_found_handler` for every request
none of the three routes matches.  The framework's dispatch itself is
external library code; it is modelled here from this registration and the
spec's routing table (spec sections 4.3 and 6). -/
def route (m : Method) (segs : List String) : Handler :=
  match m, normalizePath segs with
  | .POST, ["api", "urls"] => .create
  | .DELETE, ["api", "urls", "delete"] => .delete
  | .GET, ["api", "urls", id] => .redirect id
  | _, _ => .notFound

/-- Dispatch a routed request to its handler.  `linkBody` and `idBody` are
the request's JSON body as deserialized for the create and delete routes
respectively; the storage calls are passed through to the handlers. -/
def dispatch {C : Type} (conn : Except DbError C)
    (create_link : C → String → String → Except DbError Unit)
    (delete_link : C → String → Except DbError Unit)
    (get_link : C → String → Except DbError String)
    (linkBody : Link) (idBody : LinkId) : Handler → HandlerOutput
  | .create => create_url conn linkBody create_link
  | .delete => delete_url conn idBody delete_link
  | .redirect id => redirect_url conn ⟨id⟩ get_link
  | .notFound => { response := not_found_handler, errlog := [] }

/-- Modelled from the spec: the storage backend (`crate::database` and the
backing store, not under src/).  Section 4.1: a keyed store from string id
to string url where `get_link` "returns the destination URL for `id`, or an
empty string when no mapping exists" — so a store is a total map with the
empty string as the not-found sentinel. -/
def Store := String → String

/-- Modelled from the spec: `create_link(id, url)` "persists the mapping"
(section 4.1); on the map model it binds `id` to `url`. -/
def store_create (db : Store) (id url : String) : Store :=
  fun k => if k = id then url else db k

/-- Modelled from the spec: `delete_link(id)` "removes the mapping if
present" (section 4.1); on the map model the id reverts to the not-found
sentinel. -/
def store_delete (db : Store) (id : String) : Store :=
  fun k => if k = id then "" else db k

/-- Modelled from the spec: `get_link(id)` "returns the destination URL for
`id`, or an empty string when no mapping exists" (section 4.1). -/
def store_get (db : Store) (id : String) : String :=
  db id

/-- A successful storage fetch against a concrete store, in the shape the
`redirect_url` handler consumes. -/
def storeFetch (db : Store) : Unit → String → Except DbError String :=
  fun _ k => .ok (store_get db k)

/-! ## Theorems -/

/-- C1: For every GET /api/urls/{id} request where the storage fetch
succeeds: if the resolved URL string is non-empty, the Redirect handler
responds 302 with the Location header set to that URL; if the resolved URL
is the empty string (the not-found sentinel), it responds 200 with an empty
body, never 404. -/
theorem c1_redirect_fetch_success {C : Type} (c : C) (params : LinkId)
    (g : C → String → Except DbError String) (url : String)
    (h : g c params.id = Except.ok url) :
    (redirect_url (Except.ok c) params g).response =
      (if url = "" then { status := 200, headers := [], body := none }
       else { status := 302, headers := [("Location", url)], body := none }) ∧
    (redirect_url (Except.ok c) params g).response.status ≠ 404 := by
  simp only [redirect_url, h]
  by_cases hu : url = ""
  · simp [hu, String.isEmpty_iff]
  · simp [hu, String.isEmpty_iff]

/-- Witness for C1 at a concrete non-empty URL. -/
theorem c1_redirect_fetch_success_witness :
    (redirect_url (Except.ok ()) ⟨"abc"⟩
        (fun (_ : Unit) (_ : String) => Except.ok "https://a.test")).response =
      { status := 302, headers := [("Location", "https://a.test")], body := none } ∧
    (redirect_url (Except.ok ()) ⟨"abc"⟩
        (fun (_ : Unit) (_ : String) => Except.ok "https://a.test")).response.status ≠ 404 := by
  have h := c1_redirect_fetch_success () ⟨"abc"⟩
    (fun (_ : Unit) (_ : String) => Except.ok "https://a.test") "https://a.test" rfl
  simpa using h

/-- C2: For every POST /api/urls request with a well-formed JSON body
with id and url whose storage create call succeeds, the Create handler
responds 200 with a JSON body echoing exactly the id and url strings from
the request body (and logs nothing). -/
theorem c2_create_success_echo {C : Type} (c : C) (body : Link)
    (f : C → String → String → Except DbError Unit)
    (h : f c body.id body.url = Except.ok ()) :
    create_url (Except.ok c) body f =
      { response := { status := 200, headers := [],
                      body := some [("id", body.id), ("url", body.url)] },
        errlog := [] } := by
  simp only [create_url, h]

/-- Witness for C2 at a concrete request body. -/
theorem c2_create_success_echo_witness :
    create_url (Except.ok ()) ⟨"x", "https://a.test"⟩
        (fun (_ : Unit) (_ _ : String) => Except.ok ()) =
      { response := { status := 200, headers := [],
                      body := some [("id", "x"), ("url", "https://a.test")] },
        errlog := [] } :=
  c2_create_success_echo () ⟨"x", "https://a.test"⟩
    (fun (_ : Unit) (_ _ : String) => Except.ok ()) rfl

/-- C4: For every DELETE /api/urls/delete request with a well-formed JSON
body with id whose storage delete call succeeds, the Delete handler
responds 200 with exactly the JSON body status success, message Link
deleted — independent of the id and hence of whether it previously
existed in storage. -/
theorem c4_delete_success {C : Type} (c : C) (body : LinkId)
    (f : C → String → Except DbError Unit)
    (h : f c body.id = Except.ok ()) :
    delete_url (Except.ok c) body f =
      { response := { status := 200, headers := [],
                      body := some [("status", "success"), ("message", "Link deleted")] },
        errlog := [] } := by
  simp only [delete_url, h]

/-- Witness for C4 at a concrete id. -/
theorem c4_delete_success_witness :
    delete_url (Except.ok ()) ⟨"x"⟩ (fun (_ : Unit) (_ : String) => Except.ok ()) =
      { response := { status := 200, headers := [],
                      body := some [("status", "success"), ("message", "Link deleted")] },
        errlog := [] } :=
  c4_delete_success () ⟨"x"⟩ (fun (_ : Unit) (_ : String) => Except.ok ()) rfl

/-- C3 counterexample: the connection-vs-operation distinction IS visible
in the response body.  For the Delete handler with the same underlying
error, a connection-acquisition failure and a storage-operation failure
produce different response bodies ("Error connecting to database" vs
"Error deleting Link"), refuting the claim that the distinction is not
visible in the response. -/
theorem c3_counterexample :
    (delete_url (Except.error "boom") ⟨"x"⟩
        (fun (_ : Unit) (_ : String) => Except.ok ())).response.body ≠
    (delete_url (Except.ok ()) ⟨"x"⟩
        (fun (_ : Unit) (_ : String) => Except.error "boom")).response.body := by
  decide

/-- C3 (amended): on any connection or storage failure each handler
responds 500 with a fixed generic JSON message that does not contain the
underlying error detail (each right-hand side below is a constant
independent of the error `e`); the detail reaches only the server-side
error stream — for all connection failures and for the delete/redirect
operation failures, while the create operation failure is not logged at
all — but the connection-vs-operation distinction is visible in the
response body, each failure site using a distinct fixed message. -/
theorem c3_amended_failure_responses {C : Type} (e : DbError) (c : C)
    (lb : Link) (ib : LinkId)
    (f : C → String → String → Except DbError Unit)
    (g : C → String → Except DbError Unit)
    (r : C → String → Except DbError String)
    (hf : f c lb.id lb.url = Except.error e)
    (hg : g c ib.id = Except.error e)
    (hr : r c ib.id = Except.error e) :
    (create_url (Except.error e) lb f =
        { response := { status := 500, headers := [],
                        body := some [("error", "Error connecting to database")] },
          errlog := ["Error connecting to database: " ++ e] } ∧
     delete_url (Except.error e) ib g =
        { response := { status := 500, headers := [],
                        body := some [("error", "Error connecting to database")] },
          errlog := ["Error connecting to database: " ++ e] } ∧
     redirect_url (Except.error e) ib r =
        { response := { status := 500, headers := [],
                        body := some [("error", "Error connecting to database")] },
          errlog := ["Error connecting to database: " ++ e] }) ∧
    (create_url (Except.ok c) lb f =
        { response := { status := 500, headers := [],
                        body := some [("error", "Error shortening URL")] },
          errlog := [] } ∧
     delete_url (Except.ok c) ib g =
        { response := { status := 500, headers := [],
                        body := some [("error", "Error deleting Link")] },
          errlog := ["Error deleting Link: " ++ e] } ∧
     redirect_url (Except.ok c) ib r =
        { response := { status := 500, headers := [],
                        body := some [("error", "Error redirecting to full URL")] },
          errlog := ["Error redirecting to full URL: " ++ e] }) := by
  refine ⟨⟨rfl, rfl, rfl⟩, ?_, ?_, ?_⟩
  · simp only [create_url, hf]
  · simp only [delete_url, hg]
  · simp only [redirect_url, hr]

/-- Witness for the amended C3 at a concrete error and concrete bodies. -/
theorem c3_amended_failure_responses_witness :
    (create_url (Except.error "boom") ⟨"x", "https://a.test"⟩
        (fun (_ : Unit) (_ _ : String) => Except.error "boom") =
        { response := { status := 500, headers := [],
                        body := some [("error", "Error connecting to database")] },
          errlog := ["Error connecting to database: boom"] } ∧
     delete_url (Except.error "boom") ⟨"x"⟩
        (fun (_ : Unit) (_ : String) => Except.error "boom") =
        { response := { status := 500, headers := [],
                        body := some [("error", "Error connecting to database")] },
          errlog := ["Error connecting to database: boom"] } ∧
     redirect_url (Except.error "boom") ⟨"x"⟩
        (fun (_ : Unit) (_ : String) => Except.error "boom") =
        { response := { status := 500, headers := [],
                        body := some [("error", "Error connecting to database")] },
          errlog := ["Error connecting to database: boom"] }) ∧
    (create_url (Except.ok ()) ⟨"x", "https://a.test"⟩
        (fun (_ : Unit) (_ _ : String) => Except.error "boom") =
        { response := { status := 500, headers := [],
                        body := some [("error", "Error shortening URL")] },
          errlog := [] } ∧
     delete_url (Except.ok ()) ⟨"x"⟩
        (fun (_ : Unit) (_ : String) => Except.error "boom") =
        { response := { status := 500, headers := [],
                        body := some [("error", "Error deleting Link")] },
          errlog := ["Error deleting Link: boom"] } ∧
     redirect_url (Except.ok ()) ⟨"x"⟩
        (fun (_ : Unit) (_ : String) => Except.error "boom") =
        { response := { status := 500, headers := [],
                        body := some [("error", "Error redirecting to full URL")] },
          errlog := ["Error redirecting to full URL: boom"] }) :=
  c3_amended_failure_responses "boom" () ⟨"x", "https://a.test"⟩ ⟨"x"⟩
    (fun (_ : Unit) (_ _ : String) => Except.error "boom")
    (fun (_ : Unit) (_ : String) => Except.error "boom")
    (fun (_ : Unit) (_ : String) => Except.error "boom")
    rfl rfl rfl

/-- C5: every request whose method/path matches none of the three
registered routes is dispatched to `not_found_handler` and receives a 404
response with JSON body error, Not found. -/
theorem c5_unmatched_route_404 {C : Type} (conn : Except DbError C)
    (f : C → String → String → Except DbError Unit)
    (g : C → String → Except DbError Unit)
    (r : C → String → Except DbError String)
    (lb : Link) (ib : LinkId) (m : Method) (segs : List String)
    (h : route m segs = Handler.notFound) :
    dispatch conn f g r lb ib (route m segs) =
      { response := { status := 404, headers := [],
                      body := some [("error", "Not found")] },
        errlog := [] } := by
  rw [h]
  rfl

/-- Witness for C5: a GET to an unregistered path. -/
theorem c5_unmatched_route_404_witness :
    dispatch (Except.ok ())
        (fun (_ : Unit) (_ _ : String) => Except.ok ())
        (fun (_ : Unit) (_ : String) => Except.ok ())
        (fun (_ : Unit) (_ : String) => Except.ok "")
        ⟨"x", "https://a.test"⟩ ⟨"x"⟩
        (route Method.GET ["missing"]) =
      { response := { status := 404, headers := [],
                      body := some [("error", "Not found")] },
        errlog := [] } :=
  c5_unmatched_route_404 (Except.ok ())
    (fun (_ : Unit) (_ _ : String) => Except.ok ())
    (fun (_ : Unit) (_ : String) => Except.ok ())
    (fun (_ : Unit) (_ : String) => Except.ok "")
    ⟨"x", "https://a.test"⟩ ⟨"x"⟩ Method.GET ["missing"] (by decide)

/-- C6 counterexample: the claim quantifies over every id and url string,
but creating the link "abc" with the empty url and then fetching "abc" is
not surfaced as a 302 — the fetched value is the not-found sentinel, so
the Redirect handler answers 200 with empty body. -/
theorem c6_counterexample :
    (redirect_url (Except.ok ()) ⟨"abc"⟩
        (storeFetch (store_create (fun _ => "") "abc" ""))).response.status ≠ 302 ∧
    (redirect_url (Except.ok ()) ⟨"abc"⟩
        (storeFetch (store_create (fun _ => "") "abc" ""))).response =
      { status := 200, headers := [], body := none } := by
  constructor <;> decide

/-- C6 (amended): for every id and every NON-EMPTY url, creating the link
and immediately fetching the id returns that url, surfaced at the HTTP
level as a 302 redirect whose Location header is the created url. -/
theorem c6_amended_create_then_fetch (db : Store) (id url : String)
    (h : url ≠ "") :
    store_get (store_create db id url) id = url ∧
    redirect_url (Except.ok ()) ⟨id⟩ (storeFetch (store_create db id url)) =
      { response := { status := 302, headers := [("Location", url)], body := none },
        errlog := [] } := by
  constructor
  · simp [store_get, store_create]
  · simp [redirect_url, storeFetch, store_get, store_create, String.isEmpty_iff, h]

/-- Witness for the amended C6 at the spec's example link. -/
theorem c6_amended_create_then_fetch_witness :
    store_get (store_create (fun _ => "") "abc" "https://example.com") "abc" =
      "https://example.com" ∧
    redirect_url (Except.ok ()) ⟨"abc"⟩
        (storeFetch (store_create (fun _ => "") "abc" "https://example.com")) =
      { response := { status := 302,
                      headers := [("Location", "https://example.com")], body := none },
        errlog := [] } :=
  c6_amended_create_then_fetch (fun _ => "") "abc" "https://example.com" (by decide)

/-- C7: deleting an id that exists in storage and then fetching it returns
the not-found sentinel (the empty string), surfaced as a 200 response with
empty body. -/
theorem c7_delete_then_fetch (db : Store) (id : String)
    (h : store_get db id ≠ "") :
    store_get (store_delete db id) id = "" ∧
    redirect_url (Except.ok ()) ⟨id⟩ (storeFetch (store_delete db id)) =
      { response := { status := 200, headers := [], body := none },
        errlog := [] } := by
  constructor
  · simp [store_get, store_delete]
  · simp [redirect_url, storeFetch, store_get, store_delete, String.isEmpty_iff]

/-- Witness for C7 on a store where the id exists. -/
theorem c7_delete_then_fetch_witness :
    store_get (store_delete (fun _ => "https://a.test") "x") "x" = "" ∧
    redirect_url (Except.ok ()) ⟨"x"⟩
        (storeFetch (store_delete (fun _ => "https://a.test") "x")) =
      { response := { status := 200, headers := [], body := none },
        errlog := [] } :=
  c7_delete_then_fetch (fun _ => "https://a.test") "x" (by decide)

/-- C8: the Create handler's success response is computed solely from the
request body: for any two clients (of any two client types) and any two
storage create calls that succeed on that body, the responses are
identical, equal to the fixed 200 echo of the body's id and url, and
independent of anything the storage layer holds or returns. -/
theorem c8_create_response_storage_independent {C1 C2 : Type}
    (c1 : C1) (c2 : C2) (body : Link)
    (f1 : C1 → String → String → Except DbError Unit)
    (f2 : C2 → String → String → Except DbError Unit)
    (h1 : f1 c1 body.id body.url = Except.ok ())
    (h2 : f2 c2 body.id body.url = Except.ok ()) :
    (create_url (Except.ok c1) body f1).response =
      (create_url (Except.ok c2) body f2).response ∧
    (create_url (Except.ok c1) body f1).response =
      { status := 200, headers := [],
        body := some [("id", body.id), ("url", body.url)] } := by
  simp [create_url, h1, h2]

/-- Witness for C8 with two distinct client types and storage functions. -/
theorem c8_create_response_storage_independent_witness :
    (create_url (Except.ok ()) ⟨"x", "https://a.test"⟩
        (fun (_ : Unit) (_ _ : String) => Except.ok ())).response =
      (create_url (Except.ok true) ⟨"x", "https://a.test"⟩
        (fun (_ : Bool) (_ _ : String) => Except.ok ())).response ∧
    (create_url (Except.ok ()) ⟨"x", "https://a.test"⟩
        (fun (_ : Unit) (_ _ : String) => Except.ok ())).response =
      { status := 200, headers := [],
        body := some [("id", "x"), ("url", "https://a.test")] } :=
  c8_create_response_storage_independent () true ⟨"x", "https://a.test"⟩
    (fun (_ : Unit) (_ _ : String) => Except.ok ())
    (fun (_ : Bool) (_ _ : String) => Except.ok ())
    rfl rfl

/-- C9: whenever the storage fetch returns a non-empty string — well-formed
URL or not — the Redirect handler places that string verbatim into the
Location header of a 302 response, with no validation, normalization or
encoding applied. -/
theorem c9_location_verbatim {C : Type} (c : C) (params : LinkId)
    (g : C → String → Except DbError String) (url : String)
    (h : g c params.id = Except.ok url) (hne : url ≠ "") :
    redirect_url (Except.ok c) params g =
      { response := { status := 302, headers := [("Location", url)], body := none },
        errlog := [] } := by
  simp [redirect_url, h, String.isEmpty_iff, hne]

/-- Witness for C9 with a stored value that is not a well-formed URL. -/
theorem c9_location_verbatim_witness :
    redirect_url (Except.ok ()) ⟨"x"⟩
        (fun (_ : Unit) (_ : String) => Except.ok "not a url at all") =
      { response := { status := 302,
                      headers := [("Location", "not a url at all")], body := none },
        errlog := [] } :=
  c9_location_verbatim () ⟨"x"⟩
    (fun (_ : Unit) (_ : String) => Except.ok "not a url at all")
    "not a url at all" rfl (by decide)

/-- C10: each handler is total over storage outcomes — for every
connection-acquisition result and every storage-call result (including the
empty-string fetch result) the handler returns a response whose status is
200, 302 or 500; being total Lean functions, the embedded handlers have no
other exit. -/
theorem c10_handler_status_totality {C : Type} (conn : Except DbError C)
    (lb : Link) (ib ibr : LinkId)
    (f : C → String → String → Except DbError Unit)
    (g : C → String → Except DbError Unit)
    (r : C → String → Except DbError String) :
    (create_url conn lb f).response.status ∈ [200, 302, 500] ∧
    (delete_url conn ib g).response.status ∈ [200, 302, 500] ∧
    (redirect_url conn ibr r).response.status ∈ [200, 302, 500] := by
  refine ⟨?_, ?_, ?_⟩
  · rcases conn with e | c
    · simp [create_url]
    · rcases hf : f c lb.id lb.url with e | u
      · simp [create_url, hf]
      · simp [create_url, hf]
  · rcases conn with e | c
    · simp [delete_url]
    · rcases hg : g c ib.id with e | u
      · simp [delete_url, hg]
      · simp [delete_url, hg]
  · rcases conn with e | c
    · simp [redirect_url]
    · rcases hr : r c ibr.id with e | url
      · simp [redirect_url, hr]
      · by_cases hu : url.isEmpty <;> simp [redirect_url, hr, hu]
